import Mathlib

/-!
Verification of the rtldavis receiver core against its natural-language
specification.  The Python sources (crc.py, dsp.py, protocol.py and the
sensor decoders) are shallowly embedded below: machine integers become
naturals with explicit reduction modulo 2^16 where the code uses uint16
arithmetic, Python floats become exact rationals (decimal literals are
taken at their decimal value, and the float constant math.pi is taken at
its exact IEEE-754 double value), and the numpy buffers become lists.
-/

set_option maxRecDepth 8000

namespace Rtldavis

/-! ## CRC-16-CCITT (crc.py)

The class is constructed in protocol.py as CRC("CCITT-16", 0, 0x1021, 0):
init 0, polynomial 0x1021, residue 0.  All arithmetic is numpy uint16,
i.e. modulo 2^16. -/

/-- The CRC polynomial 0x1021 passed by protocol.py. -/
def crcPoly : ℕ := 0x1021

/-- One shift step of the table generator in CRC._new_table: shift the
uint16 register left and xor the polynomial in when the top bit was set. -/
def crcTableStep (c : ℕ) : ℕ :=
  if c &&& 0x8000 ≠ 0 then ((c <<< 1) ^^^ crcPoly) % 65536
  else (c <<< 1) % 65536

/-- Entry i of the CRC table: start from (i << 8) as a uint16 and apply
eight generator steps, as in CRC._new_table. -/
def crcTableEntry (i : ℕ) : ℕ :=
  crcTableStep^[8] ((i <<< 8) % 65536)

/-- The 256-entry CRC table built by CRC._new_table. -/
def crcTable : List ℕ := (List.range 256).map crcTableEntry

/-- One byte of CRC.checksum: crc = (crc << 8) ^ tbl[(crc >> 8) ^ byte],
in uint16 arithmetic. -/
def crcStep (crc b : ℕ) : ℕ :=
  ((crc <<< 8) % 65536) ^^^ crcTable.getD ((crc >>> 8) ^^^ b) 0

/-- CRC.checksum: fold crcStep over the data starting from the init
value 0. -/
def checksum (data : List ℕ) : ℕ := data.foldl crcStep 0

/-! ## Bit reversal (protocol.py, swap_bit_order) -/

/-- Reverse the bits of one byte: swap nibbles, swap bit pairs, swap
adjacent bits, exactly as swap_bit_order in protocol.py. -/
def swapBitOrder (b : ℕ) : ℕ :=
  let b1 := ((b &&& 0xF0) >>> 4) ||| ((b &&& 0x0F) <<< 4)
  let b2 := ((b1 &&& 0xCC) >>> 2) ||| ((b1 &&& 0x33) <<< 2)
  ((b2 &&& 0xAA) >>> 1) ||| ((b2 &&& 0x55) <<< 1)

/-! ## Channel plan and hop pattern (Parser.__init__ in protocol.py) -/

/-- The 51 channel centre frequencies in Hz from Parser.__init__. -/
def channels : List ℕ := [
  902355835, 902857585, 903359336, 903861086, 904362837, 904864587,
  905366338, 905868088, 906369839, 906871589, 907373340, 907875090,
  908376841, 908878591, 909380342, 909882092, 910383843, 910885593,
  911387344, 911889094, 912390845, 912892595, 913394346, 913896096,
  914397847, 914899597, 915401347, 915903098, 916404848, 916906599,
  917408349, 917910100, 918411850, 918913601, 919415351, 919917102,
  920418852, 920920603, 921422353, 921924104, 922425854, 922927605,
  923429355, 923931106, 924432856, 924934607, 925436357, 925938108,
  926439858, 926941609, 927443359]

/-- The hop pattern from Parser.__init__. -/
def hopPattern : List ℕ := [
  0, 19, 41, 25, 8, 47, 32, 13, 36, 22, 3, 29, 44, 16, 5, 27, 38, 10,
  49, 21, 2, 30, 42, 14, 48, 7, 24, 34, 45, 1, 17, 39, 26, 9, 31, 50,
  37, 12, 20, 33, 4, 43, 28, 15, 35, 6, 40, 11, 23, 46, 18]

/-- The channel count, len(self.channels) in Parser.__init__. -/
def channelCount : ℕ := channels.length

/-! ## Helper lemmas about the CRC -/

/-- Every output of the table generator step is a uint16 value. -/
theorem crcTableStep_lt (c : ℕ) : crcTableStep c < 65536 := by
  unfold crcTableStep
  split <;> exact Nat.mod_lt _ (by norm_num)

/-- Every table entry is a uint16 value. -/
theorem crcTableEntry_lt (i : ℕ) : crcTableEntry i < 65536 := by
  unfold crcTableEntry
  rw [show (8 : ℕ) = 7 + 1 from rfl, Function.iterate_succ_apply']
  exact crcTableStep_lt _

/-- Reading the table inside its range gives the generator entry. -/
theorem crcTable_getD (i : ℕ) (h : i < 256) :
    crcTable.getD i 0 = crcTableEntry i := by
  unfold crcTable
  rw [List.getD_eq_getElem?_getD, List.getElem?_map]
  simp [List.getElem?_range h]

/-- Every CRC register value produced by one byte step is a uint16. -/
theorem crcStep_lt (crc b : ℕ) : crcStep crc b < 65536 := by
  unfold crcStep
  have h1 : (crc <<< 8) % 65536 < 65536 := Nat.mod_lt _ (by norm_num)
  have h2 : crcTable.getD ((crc >>> 8) ^^^ b) 0 < 65536 := by
    rcases Nat.lt_or_ge ((crc >>> 8) ^^^ b) 256 with h | h
    · rw [crcTable_getD _ h]; exact crcTableEntry_lt _
    · unfold crcTable
      rw [List.getD_eq_getElem?_getD, List.getElem?_eq_none (by simpa using h)]
      norm_num
  calc ((crc <<< 8) % 65536) ^^^ crcTable.getD ((crc >>> 8) ^^^ b) 0
      < 2 ^ 16 := Nat.xor_lt_two_pow (n := 16) (by simpa using h1) (by simpa using h2)
    _ = 65536 := by norm_num

/-- The register stays a uint16 along the whole checksum fold. -/
theorem checksum_fold_lt (data : List ℕ) (crc : ℕ) (h : crc < 65536) :
    data.foldl crcStep crc < 65536 := by
  induction data generalizing crc with
  | nil => simpa using h
  | cons b rest ih => exact ih _ (crcStep_lt _ _)

/-- The checksum of any byte list is a uint16 value. -/
theorem checksum_lt (data : List ℕ) : checksum data < 65536 :=
  checksum_fold_lt data 0 (by norm_num)

/-- Feeding the high byte of the current register into the CRC step moves
the low byte into the high position. -/
theorem crcStep_high (crc : ℕ) : crcStep crc (crc >>> 8) = (crc % 256) * 256 := by
  unfold crcStep
  rw [Nat.xor_self]
  have htbl : crcTable.getD 0 0 = 0 := by
    rw [crcTable_getD 0 (by norm_num)]; decide
  rw [htbl, Nat.xor_zero, Nat.shiftLeft_eq, show (2:ℕ)^8 = 256 from rfl,
    show (65536:ℕ) = 256 * 256 from rfl, Nat.mul_mod_mul_right]

/-- Feeding the low byte next drives the register to zero. -/
theorem crcStep_low (lo : ℕ) : crcStep (lo * 256) lo = 0 := by
  unfold crcStep
  have hsh : (lo * 256) >>> 8 = lo := by
    rw [Nat.shiftRight_eq_div_pow, show (2:ℕ)^8 = 256 from rfl,
      Nat.mul_div_cancel _ (by norm_num)]
  rw [hsh, Nat.xor_self]
  have htbl : crcTable.getD 0 0 = 0 := by
    rw [crcTable_getD 0 (by norm_num)]; decide
  rw [htbl, Nat.xor_zero, Nat.shiftLeft_eq, show (2:ℕ)^8 = 256 from rfl]
  omega

/-! ## DSP pipeline (dsp.py)

Complex samples are pairs of rationals.  The numpy buffers are lists;
np.roll by minus block_size becomes npRoll, and the in-place slice
assignments become writeAt. -/

/-- A complex sample: the numpy complex128 values modelled over ℚ. -/
structure CQ where
  re : ℚ
  im : ℚ
deriving DecidableEq

/-- The complex zero, the initial content of every buffer. -/
def CQ.zero : CQ := ⟨0, 0⟩

/-- Complex addition. -/
def CQ.add (x y : CQ) : CQ := ⟨x.re + y.re, x.im + y.im⟩

/-- Scalar multiplication by a real coefficient. -/
def CQ.smul (c : ℚ) (z : CQ) : CQ := ⟨c * z.re, c * z.im⟩

/-- Multiplication by the imaginary unit, as in rotate_fs4. -/
def CQ.mulI (z : CQ) : CQ := ⟨-z.im, z.re⟩

/-- Multiplication by minus one, as in rotate_fs4. -/
def CQ.negOne (z : CQ) : CQ := ⟨-z.re, -z.im⟩

/-- Multiplication by minus the imaginary unit, as in rotate_fs4. -/
def CQ.mulNegI (z : CQ) : CQ := ⟨z.im, -z.re⟩

/-- Squared magnitude, np.abs(z)**2. -/
def CQ.abs2 (z : CQ) : ℚ := z.re * z.re + z.im * z.im

/-- np.roll of a buffer by minus k: the first k entries move to the tail. -/
def npRoll {α : Type} (xs : List α) (k : ℕ) : List α := xs.drop k ++ xs.take k

/-- Assignment to the slice [i, i + v.length) of a buffer, as the numpy
slice assignments in Demodulator.demodulate. -/
def writeAt {α : Type} (xs : List α) (i : ℕ) (v : List α) : List α :=
  xs.take i ++ v ++ xs.drop (i + v.length)

/-- Python slicing xs[a:b] with clamping at the list ends. -/
def pySlice {α : Type} (xs : List α) (a b : ℕ) : List α := (xs.take b).drop a

/-- The rotate_fs4 sign/swap pattern indexed from the start of the slice:
multiply position n by j^n. -/
def rotateFs4 (l : List CQ) : List CQ :=
  l.mapIdx fun i z =>
    match i % 4 with
    | 0 => z
    | 1 => CQ.mulI z
    | 2 => CQ.negOne z
    | _ => CQ.mulNegI z

/-- The nine FIR coefficients of fir9. -/
def fir9Coeffs : List ℚ :=
  [0.017682261285, 0.048171339939, 0.122424706672, 0.197408519126,
   0.228626345955, 0.197408519126, 0.122424706672, 0.048171339939,
   0.017682261285]

/-- Valid-mode np.convolve of a complex signal with real coefficients. -/
def convValid (coeffs : List ℚ) (a : List CQ) : List CQ :=
  (List.range (a.length + 1 - coeffs.length)).map fun k =>
    (List.range coeffs.length).foldl
      (fun acc j => CQ.add acc (CQ.smul (coeffs.reverse.getD j 0) (a.getD (k + j) CQ.zero)))
      CQ.zero

/-- The epsilon guard 1e-10 in discriminate. -/
def epsilonDisc : ℚ := 1 / 10 ^ 10

/-- One discriminator output from a consecutive pair of samples. -/
def discStep (zn znp : CQ) : ℚ :=
  (zn.im * znp.re - zn.re * znp.im) / (zn.re * zn.re + zn.im * zn.im + epsilonDisc)

/-- The discriminate function of dsp.py over a whole buffer. -/
def discriminateList (l : List CQ) : List ℚ :=
  (l.zip l.tail).map fun p => discStep p.1 p.2

/-- The quantizer: the IEEE-754 sign bit of the discriminated value,
which for an exact rational value is one exactly when it is negative. -/
def quantizeVal (x : ℚ) : ℕ := if x < 0 then 1 else 0

/-- The quantize function of dsp.py over a whole buffer. -/
def quantizeList (l : List ℚ) : List ℕ := l.map quantizeVal

/-- PacketConfig from dsp.py, holding the constructor arguments. -/
structure PacketConfig where
  bitRate : ℕ
  symbolLength : ℕ
  preambleSymbols : ℕ
  packetSymbols : ℕ
  preamble : List ℕ

/-- new_packet_config in protocol.py: bit rate 19200, 16 preamble
symbols, 80 packet symbols and the fixed preamble pattern. -/
def newPacketConfig (L : ℕ) : PacketConfig :=
  ⟨19200, L, 16, 80, [1, 1, 0, 0, 1, 0, 1, 1, 1, 0, 0, 0, 1, 0, 0, 1]⟩

/-- Derived sample rate, bit_rate times symbol_length. -/
def PacketConfig.sampleRate (c : PacketConfig) : ℕ := c.bitRate * c.symbolLength

/-- The fixed block size of 512 samples. -/
def PacketConfig.blockSize (_ : PacketConfig) : ℕ := 512

/-- Preamble length in samples. -/
def PacketConfig.preambleLength (c : PacketConfig) : ℕ :=
  c.preambleSymbols * c.symbolLength

/-- Packet length in samples. -/
def PacketConfig.packetLength (c : PacketConfig) : ℕ :=
  c.packetSymbols * c.symbolLength

/-- Sliding buffer length, rounded up to whole blocks plus two. -/
def PacketConfig.bufferLength (c : PacketConfig) : ℕ :=
  (c.packetLength / c.blockSize + 2) * c.blockSize

/-- The mutable buffers of the Demodulator. -/
structure DemodState where
  rawSamples : List CQ
  iq : List CQ
  filtered : List CQ
  discriminated : List ℚ
  quantized : List ℕ

/-- The raw sample buffer after a demodulate call: rolled left by a block
and the incoming block written at the tail. -/
def Demodulator.newRawSamples (cfg : PacketConfig) (st : DemodState)
    (input : List CQ) : List CQ :=
  writeAt (npRoll st.rawSamples cfg.blockSize)
    (cfg.bufferLength - cfg.blockSize) input

/-- The freshly written tail of the raw sample buffer. -/
def Demodulator.rawTail (cfg : PacketConfig) (st : DemodState)
    (input : List CQ) : List CQ :=
  (Demodulator.newRawSamples cfg st input).drop (cfg.bufferLength - cfg.blockSize)

/-- The iq buffer after a call: rolled, the new raw tail written at
position 9 and rotated by the Fs/4 pattern in place. -/
def Demodulator.newIq (cfg : PacketConfig) (st : DemodState)
    (input : List CQ) : List CQ :=
  writeAt (npRoll st.iq cfg.blockSize) 9 (rotateFs4 (Demodulator.rawTail cfg st input))

/-- The filtered buffer after a call: rolled, with the FIR output written
from position 1 on. -/
def Demodulator.newFiltered (cfg : PacketConfig) (st : DemodState)
    (input : List CQ) : List CQ :=
  let rolled := npRoll st.filtered cfg.blockSize
  writeAt rolled 1
    ((convValid fir9Coeffs (Demodulator.newIq cfg st input)).take (rolled.length - 1))

/-- The discriminated buffer after a call: rolled, with the discriminator
output written from position block_size on. -/
def Demodulator.newDiscriminated (cfg : PacketConfig) (st : DemodState)
    (input : List CQ) : List ℚ :=
  writeAt (npRoll st.discriminated cfg.blockSize) cfg.blockSize
    (discriminateList (Demodulator.newFiltered cfg st input))

/-- The quantized buffer after a call: rolled, with the quantized fresh
discriminator output written at the tail. -/
def Demodulator.newQuantized (cfg : PacketConfig) (st : DemodState)
    (input : List CQ) : List ℕ :=
  writeAt (npRoll st.quantized cfg.blockSize) (cfg.bufferLength - cfg.blockSize)
    (quantizeList ((Demodulator.newDiscriminated cfg st input).drop cfg.blockSize))

/-- The buffer-update phase of Demodulator.demodulate on one block. -/
def Demodulator.demodulate (cfg : PacketConfig) (st : DemodState)
    (input : List CQ) : DemodState :=
  { rawSamples := Demodulator.newRawSamples cfg st input
    iq := Demodulator.newIq cfg st input
    filtered := Demodulator.newFiltered cfg st input
    discriminated := Demodulator.newDiscriminated cfg st input
    quantized := Demodulator.newQuantized cfg st input }

/-! ## Frame slicing (Demodulator._slice) -/

/-- A decibel quantity as the code computes it: either a literal default
or ten times the base-ten logarithm of the argument. -/
inductive DbVal
| lit (x : ℚ)
| tenLog10 (x : ℚ)
deriving DecidableEq

/-- A sliced packet: candidate index, ten data bytes, RSSI and SNR. -/
structure Packet where
  index : ℕ
  data : List ℕ
  rssi : DbVal
  snr : DbVal
deriving DecidableEq

/-- Mean of a list of rationals, np.mean. -/
def listMeanQ (l : List ℚ) : ℚ := l.sum / l.length

/-- Mean squared magnitude of a complex slice, np.mean(np.abs(x)**2). -/
def sliceMeanAbs2 (l : List CQ) : ℚ := listMeanQ (l.map CQ.abs2)

/-- The MSB-first bit packing loop of _slice: bit i of the packet is
quantized[q + i·L], shifted into byte i >> 3. -/
def slicePacketBytes (cfg : PacketConfig) (quantized : List ℕ) (q : ℕ) : List ℕ :=
  (List.range cfg.packetSymbols).foldl
    (fun pkt i =>
      let j := i >>> 3
      pkt.set j (((pkt.getD j 0) <<< 1) ||| (quantized.getD (q + i * cfg.symbolLength) 0)))
    (List.replicate ((cfg.packetSymbols + 7) / 8) 0)

/-- One candidate of _slice: the packed bytes together with the RSSI and
SNR computed from the filtered buffer around index q. -/
def Demodulator.slicePacket (cfg : PacketConfig) (quantized : List ℕ)
    (filtered : List CQ) (q : ℕ) : Packet :=
  let noiseStart := q - cfg.preambleLength
  let noiseEnd := q
  let noisePower :=
    if noiseStart < noiseEnd then sliceMeanAbs2 (pySlice filtered noiseStart noiseEnd)
    else (1 : ℚ) / 10 ^ 9
  let signalPower := sliceMeanAbs2 (pySlice filtered q (q + cfg.preambleLength))
  let rssi := if 0 < signalPower then DbVal.tenLog10 signalPower else DbVal.lit (-120)
  let snr := if 0 < noisePower then DbVal.tenLog10 (signalPower / noisePower)
    else DbVal.lit 50
  { index := q, data := slicePacketBytes cfg quantized q, rssi := rssi, snr := snr }

/-- The _slice loop: skip candidates past the current block, deduplicate
by the packed bytes, and collect the packets in order. -/
def Demodulator.sliceAll (cfg : PacketConfig) (quantized : List ℕ)
    (filtered : List CQ) (indices : List ℕ) : List Packet :=
  (indices.foldl
    (fun (acc : List (List ℕ) × List Packet) q =>
      if cfg.blockSize < q then acc
      else
        let bytes := slicePacketBytes cfg quantized q
        if bytes ∈ acc.1 then acc
        else (bytes :: acc.1,
          acc.2 ++ [Demodulator.slicePacket cfg quantized filtered q]))
    ([], [])).2

/-! ## Buffer length lemmas -/

/-- Rolling a buffer preserves its length. -/
theorem npRoll_length {α : Type} (xs : List α) (k : ℕ) :
    (npRoll xs k).length = xs.length := by
  unfold npRoll
  rw [List.length_append, List.length_drop, List.length_take]
  omega

/-- A slice assignment that fits inside the buffer preserves its length. -/
theorem writeAt_length {α : Type} (xs : List α) (i : ℕ) (v : List α)
    (h : i + v.length ≤ xs.length) : (writeAt xs i v).length = xs.length := by
  unfold writeAt
  rw [List.length_append, List.length_append, List.length_take, List.length_drop]
  omega

/-- A slice assignment that ends exactly at the buffer end keeps the
prefix and replaces the tail. -/
theorem writeAt_end {α : Type} (xs : List α) (i : ℕ) (v : List α)
    (h : i + v.length = xs.length) : writeAt xs i v = xs.take i ++ v := by
  unfold writeAt
  rw [h, List.drop_length, List.append_nil]

/-- The Fs/4 rotation preserves length. -/
theorem rotateFs4_length (l : List CQ) : (rotateFs4 l).length = l.length := by
  simp [rotateFs4]

/-- Valid-mode convolution output length. -/
theorem convValid_length (c : List ℚ) (a : List CQ) :
    (convValid c a).length = a.length + 1 - c.length := by
  simp [convValid]

/-- The discriminator consumes consecutive pairs, so it shortens the
buffer by one. -/
theorem discriminateList_length (l : List CQ) :
    (discriminateList l).length = l.length - 1 := by
  unfold discriminateList
  rw [List.length_map, List.length_zip, List.length_tail]
  omega

/-- Quantization preserves length. -/
theorem quantizeList_length (l : List ℚ) : (quantizeList l).length = l.length := by
  simp [quantizeList]

/-- With a full block of input, the fresh raw tail is the input block. -/
theorem rawTail_eq_input (cfg : PacketConfig) (st : DemodState) (input : List CQ)
    (hraw : st.rawSamples.length = cfg.bufferLength)
    (hin : input.length = cfg.blockSize)
    (hB : cfg.blockSize ≤ cfg.bufferLength) :
    Demodulator.rawTail cfg st input = input := by
  unfold Demodulator.rawTail Demodulator.newRawSamples
  rw [writeAt_end _ _ _ (by rw [npRoll_length, hraw, hin]; omega)]
  exact List.drop_left' (by rw [List.length_take, npRoll_length, hraw]; omega)

/-! ## Claim theorems: sliding buffer rotation (C9) -/

/-- C9: after a demodulate call on a full block, the first
buffer_length − block_size entries of the quantized buffer are the last
buffer_length − block_size entries of the previous quantized buffer, and
the newest block_size entries are the quantizer output for the fresh
discriminated tail computed from this block. -/
theorem demodulate_quantized_rotation (cfg : PacketConfig) (st : DemodState)
    (input : List CQ)
    (hraw : st.rawSamples.length = cfg.bufferLength)
    (hiq : st.iq.length = cfg.blockSize + 9)
    (hfil : st.filtered.length = cfg.blockSize + 1)
    (hdis : st.discriminated.length = 2 * cfg.blockSize)
    (hq : st.quantized.length = cfg.bufferLength)
    (hin : input.length = cfg.blockSize) :
    ((Demodulator.demodulate cfg st input).quantized).take
        (cfg.bufferLength - cfg.blockSize) = st.quantized.drop cfg.blockSize ∧
    ((Demodulator.demodulate cfg st input).quantized).drop
        (cfg.bufferLength - cfg.blockSize)
      = quantizeList ((Demodulator.newDiscriminated cfg st input).drop cfg.blockSize) := by
  have hB2 : 2 * cfg.blockSize ≤ cfg.bufferLength := by
    unfold PacketConfig.bufferLength PacketConfig.blockSize
    omega
  have hB : cfg.blockSize ≤ cfg.bufferLength := by omega
  have h1 : Demodulator.rawTail cfg st input = input :=
    rawTail_eq_input cfg st input hraw hin hB
  have h2 : Demodulator.newIq cfg st input
      = (npRoll st.iq cfg.blockSize).take 9 ++ rotateFs4 input := by
    unfold Demodulator.newIq
    rw [h1, writeAt_end _ _ _ (by rw [rotateFs4_length, hin, npRoll_length, hiq]; omega)]
  have hiq2 : (Demodulator.newIq cfg st input).length = cfg.blockSize + 9 := by
    rw [h2]
    simp only [List.length_append, List.length_take, rotateFs4_length, hin,
      npRoll_length, hiq]
    omega
  have hconv : (convValid fir9Coeffs (Demodulator.newIq cfg st input)).length
      = cfg.blockSize + 1 := by
    rw [convValid_length, hiq2]
    simp [fir9Coeffs]
  have hfil2 : (Demodulator.newFiltered cfg st input).length = cfg.blockSize + 1 := by
    unfold Demodulator.newFiltered
    rw [writeAt_length]
    · rw [npRoll_length, hfil]
    · rw [npRoll_length, hfil]
      simp only [List.length_take, npRoll_length, hfil, hconv]
      omega
  have hdlist : (discriminateList (Demodulator.newFiltered cfg st input)).length
      = cfg.blockSize := by
    rw [discriminateList_length, hfil2]; omega
  have hdis2 : (Demodulator.newDiscriminated cfg st input).length
      = 2 * cfg.blockSize := by
    unfold Demodulator.newDiscriminated
    rw [writeAt_length]
    · rw [npRoll_length, hdis]
    · rw [npRoll_length, hdis, hdlist]; omega
  have hbits : (quantizeList ((Demodulator.newDiscriminated cfg st input).drop
      cfg.blockSize)).length = cfg.bufferLength - cfg.blockSize
      + cfg.blockSize - cfg.bufferLength + cfg.blockSize := by
    rw [quantizeList_length, List.length_drop, hdis2]; omega
  have h5 : Demodulator.newQuantized cfg st input
      = st.quantized.drop cfg.blockSize
        ++ quantizeList ((Demodulator.newDiscriminated cfg st input).drop
            cfg.blockSize) := by
    unfold Demodulator.newQuantized
    rw [writeAt_end _ _ _ (by
      rw [quantizeList_length, List.length_drop, hdis2, npRoll_length, hq]; omega)]
    congr 1
    unfold npRoll
    rw [List.take_append_eq_append_take]
    have hlen : (st.quantized.drop cfg.blockSize).length
        = cfg.bufferLength - cfg.blockSize := by
      rw [List.length_drop, hq]
    rw [List.take_of_length_le (by omega), hlen]
    simp
  have hdq : (Demodulator.demodulate cfg st input).quantized
      = Demodulator.newQuantized cfg st input := rfl
  rw [hdq, h5]
  constructor
  · exact List.take_left' (by rw [List.length_drop, hq])
  · exact List.drop_left' (by rw [List.length_drop, hq])

/-- Concrete demodulator state for the C9 witness: symbol length 1, all
buffers zero-filled at their constructed lengths. -/
def cfgOne : PacketConfig := newPacketConfig 1

/-- Zero-filled buffers at the lengths Demodulator.__init__ allocates for
symbol length 1 (buffer 1024, iq 521, filtered 513, discriminated 1024,
quantized 1024). -/
def stWitness : DemodState :=
  { rawSamples := List.replicate 1024 CQ.zero
    iq := List.replicate 521 CQ.zero
    filtered := List.replicate 513 CQ.zero
    discriminated := List.replicate 1024 0
    quantized := List.replicate 1024 0 }

/-- One zero block of input samples. -/
def inputWitness : List CQ := List.replicate 512 CQ.zero

/-- Witness for C9 at the zero-filled state. -/
theorem demodulate_quantized_rotation_witness :
    stWitness.quantized.length = cfgOne.bufferLength ∧
    inputWitness.length = cfgOne.blockSize ∧
    (((Demodulator.demodulate cfgOne stWitness inputWitness).quantized).take
        (cfgOne.bufferLength - cfgOne.blockSize)
      = stWitness.quantized.drop cfgOne.blockSize ∧
    ((Demodulator.demodulate cfgOne stWitness inputWitness).quantized).drop
        (cfgOne.bufferLength - cfgOne.blockSize)
      = quantizeList ((Demodulator.newDiscriminated cfgOne stWitness
          inputWitness).drop cfgOne.blockSize)) :=
  ⟨by norm_num [stWitness, cfgOne, newPacketConfig, PacketConfig.bufferLength,
      PacketConfig.packetLength, PacketConfig.blockSize],
   by norm_num [inputWitness, cfgOne, newPacketConfig, PacketConfig.blockSize],
   demodulate_quantized_rotation cfgOne stWitness inputWitness
    (by norm_num [stWitness, cfgOne, newPacketConfig, PacketConfig.bufferLength,
      PacketConfig.packetLength, PacketConfig.blockSize])
    (by norm_num [stWitness, cfgOne, newPacketConfig, PacketConfig.blockSize])
    (by norm_num [stWitness, cfgOne, newPacketConfig, PacketConfig.blockSize])
    (by norm_num [stWitness, cfgOne, newPacketConfig, PacketConfig.blockSize])
    (by norm_num [stWitness, cfgOne, newPacketConfig, PacketConfig.bufferLength,
      PacketConfig.packetLength, PacketConfig.blockSize])
    (by norm_num [inputWitness, cfgOne, newPacketConfig, PacketConfig.blockSize])⟩

/-! ## Claim theorems: SNR at an empty noise region (C6) -/

/-- C6 counterexample: at candidate index 0 with unit-power preamble
samples, the sliced packet reports SNR 10·log10(10^9) = 90 dB, not the
literal 50 dB default; the default branch is not taken when the noise
region is empty, because the code substitutes noise power 1e-9 instead. -/
theorem slice_snr_empty_noise_not_fifty :
    (Demodulator.slicePacket cfgOne [] (List.replicate 513 ⟨1, 0⟩) 0).snr
        = DbVal.tenLog10 (10 ^ 9) ∧
    DbVal.tenLog10 (10 ^ 9) ≠ DbVal.lit 50 ∧
    (10 : ℝ) * Real.logb 10 ((10 : ℝ) ^ (9 : ℕ)) = 90 := by
  refine ⟨?_, by decide, ?_⟩
  · norm_num [Demodulator.slicePacket, sliceMeanAbs2, listMeanQ, pySlice,
      cfgOne, newPacketConfig, PacketConfig.preambleLength,
      List.take_replicate, List.map_replicate, List.sum_replicate,
      CQ.abs2, nsmul_eq_mul]
  have h9 : Real.logb 10 ((10 : ℝ) ^ (9 : ℕ)) = 9 := by
    rw [Real.logb, Real.log_pow]
    have hlog : Real.log 10 ≠ 0 :=
      ne_of_gt (Real.log_pos (by norm_num))
    field_simp
  rw [h9]; norm_num

/-- C6 amended: for a candidate at index 0 the noise region is empty, the
code substitutes the constant 1e-9 for the noise power, and the reported
SNR is 10·log10(signal_power / 1e-9); the literal 50 dB default is
reported only when the computed noise power is not positive. -/
theorem slice_snr_empty_noise_formula (cfg : PacketConfig) (quantized : List ℕ)
    (filtered : List CQ)
    (hsp : 0 < sliceMeanAbs2 (pySlice filtered 0 (0 + cfg.preambleLength))) :
    (Demodulator.slicePacket cfg quantized filtered 0).snr
      = DbVal.tenLog10 (sliceMeanAbs2 (pySlice filtered 0 (0 + cfg.preambleLength))
          / ((1 : ℚ) / 10 ^ 9)) := by
  unfold Demodulator.slicePacket
  have hnoise : ¬ ((0 : ℕ) - cfg.preambleLength < 0) := by omega
  simp only [if_neg hnoise]
  rw [if_pos (by norm_num)]

/-- Witness for C6 amended at the unit-power buffer. -/
theorem slice_snr_empty_noise_formula_witness :
    (0 : ℚ) < sliceMeanAbs2 (pySlice (List.replicate 513 (⟨1, 0⟩ : CQ)) 0
        (0 + cfgOne.preambleLength)) ∧
    (Demodulator.slicePacket cfgOne [] (List.replicate 513 (⟨1, 0⟩ : CQ)) 0).snr
      = DbVal.tenLog10 (sliceMeanAbs2 (pySlice (List.replicate 513 (⟨1, 0⟩ : CQ)) 0
          (0 + cfgOne.preambleLength)) / ((1 : ℚ) / 10 ^ 9)) :=
  ⟨by norm_num [sliceMeanAbs2, listMeanQ, pySlice, cfgOne, newPacketConfig,
      PacketConfig.preambleLength, List.take_replicate, List.map_replicate,
      List.sum_replicate, CQ.abs2, nsmul_eq_mul],
   slice_snr_empty_noise_formula cfgOne [] (List.replicate 513 ⟨1, 0⟩)
    (by norm_num [sliceMeanAbs2, listMeanQ, pySlice, cfgOne, newPacketConfig,
      PacketConfig.preambleLength, List.take_replicate, List.map_replicate,
      List.sum_replicate, CQ.abs2, nsmul_eq_mul])⟩

/-! ## Parser (protocol.py) and sensor decoders -/

/-- The exact rational value of the IEEE-754 double constant math.pi used
in Parser.parse. -/
def floatPi : ℚ := 884279719003555 / 281474976710656

/-- Python int() applied to a real value: truncation toward zero. -/
def ratTrunc (x : ℚ) : ℤ := if 0 ≤ x then ⌊x⌋ else -⌊-x⌋

/-- The temperature formula of decoders/temperature.py:
((data[3] << 8) | data[4]) / 160.  Its def has a mandatory logger
parameter that protocol.py omits at the call site, so at run time the
call raises and this value is never emitted (see parseSensorData). -/
def decode_temperature (data : List ℕ) : ℚ :=
  (((data.getD 3 0 <<< 8) ||| data.getD 4 0 : ℕ) : ℚ) / 160

/-- State of the cumulative rain total decoder in decoders/rain.py,
standing for the module-global decoder instance. -/
structure RainTotalState where
  lastClicks : Option ℕ
  totalClicks : ℕ
  rolloverCount : ℕ
deriving DecidableEq

/-- The sensor nibble values of the Sensor enum in protocol.py. -/
def knownSensorIds : List ℕ := [2, 4, 5, 6, 7, 8, 9, 0xA, 0xE]

/-- A decoded message, mirroring the Message dataclass fields that the
parser fills in. -/
structure Message where
  id : ℕ
  sensor : Option ℕ
  windSpeed : ℕ
  windDirection : ℕ
  temperature : Option ℚ
  humidity : Option ℚ
  rainRate : Option ℚ
  rainTotal : Option ℚ
  solarRadiation : Option ℚ
  uvIndex : Option ℚ
  windGustSpeed : Option ℕ
  superCapVoltage : Option ℚ
  light : Option ℚ
  rawSensorId : Option ℕ
  rssi : DbVal
  snr : DbVal
deriving DecidableEq

/-- The mutable parser fields used by parse and the hop methods.  The
rain decoder state stands for the module-global decoder instance of
decoders/rain.py. -/
structure ParserState where
  id : Option ℕ
  hopIdx : ℕ
  channelFreqErr : ℕ → Option ℤ
  currentFreqErr : ℤ
  rainState : RainTotalState

/-- The Hop named tuple returned by the hop methods. -/
structure HopInfo where
  channelIdx : ℕ
  channelFreq : ℕ
  freqError : ℤ
deriving DecidableEq

/-- Parser.hop: read the pattern at hop_idx, fetch the channel frequency,
and adopt the stored per-channel frequency error when one exists. -/
def Parser.hop (p : ParserState) : ParserState × HopInfo :=
  let channelIdx := hopPattern.getD p.hopIdx 0
  let channelFreq := channels.getD channelIdx 0
  let cur :=
    match p.channelFreqErr channelIdx with
    | some e => e
    | none => p.currentFreqErr
  ({ p with currentFreqErr := cur }, ⟨channelIdx, channelFreq, cur⟩)

/-- random.randint(lo, hi) modelled on an arbitrary seed: some value in
the inclusive range lo..hi. -/
def randint (lo hi seed : ℕ) : ℕ := lo + seed % (hi + 1 - lo)

/-- The hop_idx chosen by Parser.__init__, randint(0, channel_count-1). -/
def Parser.initHopIdx (seed : ℕ) : ℕ := randint 0 (channelCount - 1) seed

/-- Parser.next_hop: advance hop_idx cyclically, then hop. -/
def Parser.nextHop (p : ParserState) : ParserState × HopInfo :=
  Parser.hop { p with hopIdx := (p.hopIdx + 1) % channelCount }

/-- Parser.rand_hop: pick a uniformly random hop_idx, then hop. -/
def Parser.randHop (seed : ℕ) (p : ParserState) : ParserState × HopInfo :=
  Parser.hop { p with hopIdx := randint 0 (channelCount - 1) seed }

/-- The frequency error computed in Parser.parse for an accepted packet:
minus the Python int() of 9600 plus the mean of
discriminated[index + 8·L : index + 24·L] times sample_rate over 2·pi. -/
def parseFreqError (cfg : PacketConfig) (disc : List ℚ) (idx : ℕ) : ℤ :=
  let lower := idx + 8 * cfg.symbolLength
  let upper := idx + 24 * cfg.symbolLength
  let tail := pySlice disc lower upper
  let mean := listMeanQ tail
  (-(ratTrunc (9600 + (mean * (cfg.sampleRate : ℚ)) / (2 * floatPi))))

/-- Parser._parse_sensor_data as it executes in the committed source.
Every decoder call in the try block fails at run time: decode_temperature
and decode_rain_total are called without the logger argument their
definitions require, and decode_humidity, decode_rain_rate, decode_uv,
decode_solar and decode_supercap exist only as Sensor classes, not as
the imported module-level functions.  The blanket except swallows the
exception, so every decoder-backed field stays None and the rain state
is never touched.  Only the two inline computations succeed: the wind
gust branch reads msg_data[3] and the light branch computes
(msg_data[3] << 8 | msg_data[4]) & 0x3FF directly. -/
def parseSensorData (pkt : Packet) (msgId sensorId : ℕ) (msgData : List ℕ)
    (rain : RainTotalState) : Message × RainTotalState :=
  ({ id := msgId
     sensor := some sensorId
     windSpeed := msgData.getD 1 0
     windDirection := msgData.getD 2 0
     temperature := none
     humidity := none
     rainRate := none
     rainTotal := none
     solarRadiation := none
     uvIndex := none
     windGustSpeed := if sensorId = 9 then some (msgData.getD 3 0) else none
     superCapVoltage := none
     light := if sensorId = 7 then
        some ((((msgData.getD 3 0 <<< 8) ||| msgData.getD 4 0) &&& 0x3FF : ℕ) : ℚ)
       else none
     rawSensorId := none
     rssi := pkt.rssi
     snr := pkt.snr }, rain)

/-- The message emission step of Parser.parse once a frame has passed the
CRC and the station filter: known sensor ids go through
_parse_sensor_data, unknown ones produce a partial message. -/
def parseEmit (pkt : Packet) (msgId : ℕ) (msgData : List ℕ)
    (st : ParserState) : List Message × ParserState :=
  let sensorId := msgData.getD 0 0 >>> 4
  if sensorId ∈ knownSensorIds then
    let r := parseSensorData pkt msgId sensorId msgData st.rainState
    ([r.1], { st with rainState := r.2 })
  else
    ([{ id := msgId
        sensor := none
        windSpeed := msgData.getD 1 0
        windDirection := msgData.getD 2 0
        temperature := none
        humidity := none
        rainRate := none
        rainTotal := none
        solarRadiation := none
        uvIndex := none
        windGustSpeed := none
        superCapVoltage := none
        light := none
        rawSensorId := some sensorId
        rssi := pkt.rssi
        snr := pkt.snr }], st)

/-- One iteration of the loop in Parser.parse: bit-reverse, deduplicate,
check the CRC of the first eight bytes, record the frequency error,
filter on the station id, and emit a message. -/
def parseStep (cfg : PacketConfig) (disc : List ℚ)
    (acc : List (List ℕ) × List Message × ParserState) (pkt : Packet) :
    List (List ℕ) × List Message × ParserState :=
  let seen := acc.1
  let msgs := acc.2.1
  let st := acc.2.2
  let data := pkt.data.map swapBitOrder
  if data ∈ seen then acc
  else
    let seen' := data :: seen
    let msgPayload := data.take 8
    if checksum msgPayload ≠ 0 then (seen', msgs, st)
    else
      let freqError := parseFreqError cfg disc pkt.index
      let ch := hopPattern.getD st.hopIdx 0
      let st' : ParserState :=
        { st with
          channelFreqErr := fun c =>
            if c = ch then some (st.currentFreqErr + freqError)
            else st.channelFreqErr c
          currentFreqErr := st.currentFreqErr + freqError }
      let msgId := msgPayload.getD 0 0 &&& 0x7
      match st.id with
      | some i =>
          if msgId ≠ i then (seen', msgs, st')
          else
            let r := parseEmit pkt msgId msgPayload st'
            (seen', msgs ++ r.1, r.2)
      | none =>
          let r := parseEmit pkt msgId msgPayload st'
          (seen', msgs ++ r.1, r.2)

/-- Parser.parse over a list of sliced packets, with the demodulator
discriminated buffer passed in as it stands at the call. -/
def Parser.parse (cfg : PacketConfig) (disc : List ℚ) (st : ParserState)
    (pkts : List Packet) : List Message × ParserState :=
  let r := pkts.foldl (parseStep cfg disc) ([], [], st)
  (r.2.1, r.2.2)

/-! ## Parser helper lemmas -/

/-- A fresh parser state: no station filter, hop index zero, empty
frequency memory and a fresh rain decoder. -/
def stInit : ParserState :=
  { id := none
    hopIdx := 0
    channelFreqErr := fun _ => none
    currentFreqErr := 0
    rainState := ⟨none, 0, 0⟩ }

/-- Emission always yields exactly one message. -/
theorem parseEmit_fst_ne_nil (pkt : Packet) (msgId : ℕ) (msgData : List ℕ)
    (st : ParserState) : (parseEmit pkt msgId msgData st).1 ≠ [] := by
  unfold parseEmit
  dsimp only
  split <;> simp

/-- Emission does not touch the accumulated frequency error. -/
theorem parseEmit_currentFreqErr (pkt : Packet) (msgId : ℕ) (msgData : List ℕ)
    (st : ParserState) :
    (parseEmit pkt msgId msgData st).2.currentFreqErr = st.currentFreqErr := by
  unfold parseEmit
  dsimp only
  split <;> rfl

/-- Emission does not touch the per-channel frequency memory. -/
theorem parseEmit_channelFreqErr (pkt : Packet) (msgId : ℕ) (msgData : List ℕ)
    (st : ParserState) :
    (parseEmit pkt msgId msgData st).2.channelFreqErr = st.channelFreqErr := by
  unfold parseEmit
  dsimp only
  split <;> rfl

/-- After one accepted packet (fresh in the dedup set, CRC zero), the
parser state carries the accumulated frequency error and has recorded it
for the current channel of the hop pattern. -/
theorem parseStep_state (cfg : PacketConfig) (disc : List ℚ)
    (seen : List (List ℕ)) (msgs : List Message) (st : ParserState) (pkt : Packet)
    (hseen : pkt.data.map swapBitOrder ∉ seen)
    (hcrc : checksum ((pkt.data.map swapBitOrder).take 8) = 0) :
    (parseStep cfg disc (seen, msgs, st) pkt).2.2.currentFreqErr
      = st.currentFreqErr + parseFreqError cfg disc pkt.index ∧
    (parseStep cfg disc (seen, msgs, st) pkt).2.2.channelFreqErr
        (hopPattern.getD st.hopIdx 0)
      = some (st.currentFreqErr + parseFreqError cfg disc pkt.index) := by
  unfold parseStep
  rw [if_neg hseen, if_neg (by simp [hcrc])]
  dsimp only
  constructor
  · split
    · split
      · rfl
      · rw [parseEmit_currentFreqErr]
    · rw [parseEmit_currentFreqErr]
  · split
    · split
      · simp
      · rw [parseEmit_channelFreqErr]; simp
    · rw [parseEmit_channelFreqErr]; simp

/-! ## Claim theorems: frame acceptance and CRC window (C1) -/

/-- A frame whose bytes 2..10 (after bit reversal) have checksum zero but
whose bytes 0..8 do not: first byte 0x80 reverses to 0x01, the rest are
zero. -/
def pktC1 : Packet :=
  ⟨0, [0x80, 0, 0, 0, 0, 0, 0, 0, 0, 0], DbVal.lit 0, DbVal.lit 0⟩

/-- C1 counterexample: this frame satisfies the claimed acceptance test
(checksum of bytes 2..10 is zero) yet the parser emits nothing for it,
because the code checksums bytes 0..8 instead. -/
theorem parse_crc_window_claim_false :
    checksum ((pktC1.data.map swapBitOrder).drop 2) = 0 ∧
    checksum ((pktC1.data.map swapBitOrder).take 8) ≠ 0 ∧
    (Parser.parse cfgOne [] stInit [pktC1]).1 = [] := by
  refine ⟨by decide, by decide, ?_⟩
  have hcrc : checksum ((pktC1.data.map swapBitOrder).take 8) ≠ 0 := by decide
  unfold Parser.parse
  simp only [List.foldl_cons, List.foldl_nil]
  unfold parseStep
  rw [if_neg (by simp), if_pos (by simpa using hcrc)]

/-- C1 amended: a sliced 10-byte frame that is not a within-batch
duplicate is accepted (emits a message) exactly when the CRC-16-CCITT
checksum of bytes 0..8 of the bit-reversed frame is zero; the trailing
two repeater bytes are ignored. -/
theorem parse_accepts_iff_crc_first8 (cfg : PacketConfig) (disc : List ℚ)
    (st : ParserState) (pkt : Packet) (hid : st.id = none) :
    (Parser.parse cfg disc st [pkt]).1 ≠ [] ↔
      checksum ((pkt.data.map swapBitOrder).take 8) = 0 := by
  unfold Parser.parse
  simp only [List.foldl_cons, List.foldl_nil]
  unfold parseStep
  rw [if_neg (by simp)]
  by_cases hc : checksum ((pkt.data.map swapBitOrder).take 8) = 0
  · rw [if_neg (by simpa using hc), hid]
    dsimp only
    simp [hc, parseEmit_fst_ne_nil]
  · rw [if_pos (by simpa using hc)]
    simpa using hc

/-- Witness for C1 amended at the all-zero frame, which has checksum
zero and is accepted. -/
theorem parse_accepts_iff_crc_first8_witness :
    stInit.id = none ∧
    ((Parser.parse cfgOne [] stInit
        [⟨0, List.replicate 10 0, DbVal.lit 0, DbVal.lit 0⟩]).1 ≠ [] ↔
      checksum (((List.replicate 10 0).map swapBitOrder).take 8) = 0) :=
  ⟨rfl, parse_accepts_iff_crc_first8 cfgOne [] stInit
    ⟨0, List.replicate 10 0, DbVal.lit 0, DbVal.lit 0⟩ rfl⟩

/-! ## Claim theorems: frequency error estimate (C2) -/

/-- An all-zero ten byte frame, which passes the CRC. -/
def pktZeroC2 : Packet := ⟨0, List.replicate 10 0, DbVal.lit 0, DbVal.lit 0⟩

/-- A 32-sample discriminated buffer of zeros. -/
def discZeros : List ℚ := List.replicate 32 0

/-- C2 counterexample: for an accepted all-zero frame at index 0 over an
all-zero discriminated buffer, the preamble mean is zero, so the claimed
formula −round(μ·fs/2π) gives 0, but the parser records −9600 because
the code adds a 9600 Hz baseline inside the truncation. -/
theorem parse_freq_error_claim_false :
    (Parser.parse cfgOne discZeros stInit [pktZeroC2]).2.currentFreqErr = -9600 ∧
    listMeanQ (pySlice discZeros 0 (0 + cfgOne.preambleLength)) = 0 ∧
    ((-9600 : ℤ) ≠ -0) := by
  refine ⟨?_, ?_, by norm_num⟩
  · have hstep := parseStep_state cfgOne discZeros [] [] stInit pktZeroC2
      (by simp) (by decide)
    have hlink : (Parser.parse cfgOne discZeros stInit [pktZeroC2]).2
        = (parseStep cfgOne discZeros ([], [], stInit) pktZeroC2).2.2 := rfl
    rw [hlink, hstep.1]
    have hfe : parseFreqError cfgOne discZeros pktZeroC2.index = -9600 := by
      unfold parseFreqError
      dsimp only
      have htail : pySlice discZeros (pktZeroC2.index + 8 * cfgOne.symbolLength)
          (pktZeroC2.index + 24 * cfgOne.symbolLength) = List.replicate 16 0 := by
        norm_num [pySlice, discZeros, pktZeroC2, cfgOne, newPacketConfig,
          List.take_replicate, List.drop_replicate]
      rw [htail]
      have hmean : listMeanQ (List.replicate 16 (0 : ℚ)) = 0 := by
        norm_num [listMeanQ, List.sum_replicate]
      rw [hmean]
      norm_num [ratTrunc]
    rw [hfe]
    norm_num [stInit]
  · norm_num [listMeanQ, pySlice, discZeros, cfgOne, newPacketConfig,
      PacketConfig.preambleLength, List.take_replicate, List.drop_replicate,
      List.sum_replicate]

/-- C2 amended: for an accepted, non-duplicate frame at index q the
parser adds to the running correction the value
−int(9600 + mean(discriminated[q+8L : q+24L]) · sample_rate / (2π)),
where int() truncates toward zero and π is the double constant; the
window starts 8 symbol lengths after q and the 9600 Hz term is present. -/
theorem parse_freq_error_formula (cfg : PacketConfig) (disc : List ℚ)
    (st : ParserState) (pkt : Packet)
    (hcrc : checksum ((pkt.data.map swapBitOrder).take 8) = 0) :
    (Parser.parse cfg disc st [pkt]).2.currentFreqErr
      = st.currentFreqErr
        + (-(ratTrunc (9600
            + (listMeanQ (pySlice disc (pkt.index + 8 * cfg.symbolLength)
                (pkt.index + 24 * cfg.symbolLength)) * (cfg.sampleRate : ℚ))
              / (2 * floatPi)))) := by
  have hstep := parseStep_state cfg disc [] [] st pkt (by simp) hcrc
  have hlink : (Parser.parse cfg disc st [pkt]).2
      = (parseStep cfg disc ([], [], st) pkt).2.2 := rfl
  rw [hlink, hstep.1]
  rfl

/-- Witness for C2 amended at the all-zero frame and buffer. -/
theorem parse_freq_error_formula_witness :
    checksum ((pktZeroC2.data.map swapBitOrder).take 8) = 0 ∧
    (Parser.parse cfgOne discZeros stInit [pktZeroC2]).2.currentFreqErr
      = stInit.currentFreqErr
        + (-(ratTrunc (9600
            + (listMeanQ (pySlice discZeros (pktZeroC2.index + 8 * cfgOne.symbolLength)
                (pktZeroC2.index + 24 * cfgOne.symbolLength)) * (cfgOne.sampleRate : ℚ))
              / (2 * floatPi)))) :=
  ⟨by decide,
   parse_freq_error_formula cfgOne discZeros stInit pktZeroC2 (by decide)⟩

/-! ## Claim theorems: stored frequency correction on hop (C3) -/

/-- C3: when the stored frequency-error entry for the channel the next
hop lands on equals x, the hop returns x as the correction and adopts it
as the current correction.  In this code the per-channel memory holds a
single accumulated value, so a memory all of whose entries equal x is
exactly a stored entry x, and the correction applied is x. -/
theorem next_hop_applies_stored_error (p : ParserState) (ch : ℕ) (x : ℤ)
    (hch : hopPattern.getD ((p.hopIdx + 1) % channelCount) 0 = ch)
    (hstored : p.channelFreqErr ch = some x) :
    (Parser.nextHop p).2.freqError = x ∧
    (Parser.nextHop p).1.currentFreqErr = x := by
  unfold Parser.nextHop Parser.hop
  dsimp only
  rw [hch, hstored]
  exact ⟨rfl, rfl⟩

/-- State for the C3 witness: frequency error 42 stored for channel 19,
which the pattern reaches from hop index 0. -/
def pC3 : ParserState :=
  { id := none
    hopIdx := 0
    channelFreqErr := fun c => if c = 19 then some 42 else none
    currentFreqErr := 0
    rainState := ⟨none, 0, 0⟩ }

/-- Witness for C3: from hop index 0 the next hop lands on pattern entry
19, whose stored error 42 becomes the applied correction. -/
theorem next_hop_applies_stored_error_witness :
    hopPattern.getD ((pC3.hopIdx + 1) % channelCount) 0 = 19 ∧
    pC3.channelFreqErr 19 = some 42 ∧
    ((Parser.nextHop pC3).2.freqError = 42 ∧
     (Parser.nextHop pC3).1.currentFreqErr = 42) :=
  ⟨by decide, by simp [pC3],
   next_hop_applies_stored_error pC3 19 42 (by decide) (by simp [pC3])⟩

/-! ## Claim theorems: temperature frame decoding (C5) -/

/-- The ten-byte frame whose bit-reversed payload is 82 00 00 02 EE 00
followed by its valid CRC 02 BD and two zero repeater bytes. -/
def pktTemp : Packet :=
  ⟨0, [0x41, 0, 0, 0x40, 0x77, 0, 0x40, 0xBD, 0, 0], DbVal.lit 0, DbVal.lit 0⟩

/-- The message the parser produces for pktTemp: station id 2 and sensor
nibble 8 are decoded, but the temperature field is None because the
decode_temperature call raises and is swallowed (see parseSensorData). -/
def msgTempExpected : Message :=
  { id := 2
    sensor := some 8
    windSpeed := 0
    windDirection := 0
    temperature := none
    humidity := none
    rainRate := none
    rainTotal := none
    solarRadiation := none
    uvIndex := none
    windGustSpeed := none
    superCapVoltage := none
    light := none
    rawSensorId := none
    rssi := DbVal.lit 0
    snr := DbVal.lit 0 }

/-- Evaluation of the parser on the temperature test frame. -/
theorem parse_temp_eval :
    (Parser.parse cfgOne discZeros stInit [pktTemp]).1 = [msgTempExpected] := by
  have hpayload : (pktTemp.data.map swapBitOrder).take 8
      = [0x82, 0, 0, 0x02, 0xEE, 0, 0x02, 0xBD] := by decide
  unfold Parser.parse
  simp only [List.foldl_cons, List.foldl_nil]
  unfold parseStep
  rw [if_neg (by simp), if_neg (by decide)]
  dsimp only
  rw [hpayload, show stInit.id = none from rfl]
  dsimp only
  unfold parseEmit
  dsimp only
  rw [show (([0x82, 0, 0, 0x02, 0xEE, 0, 0x02, 0xBD] : List ℕ).getD 0 0 >>> 4) = 8
        from by decide,
    if_pos (show (8 : ℕ) ∈ knownSensorIds from by decide)]
  unfold parseSensorData
  dsimp only
  norm_num [msgTempExpected, stInit, pktTemp, decode_temperature,
    show (([0x82, 0, 0, 0x02, 0xEE, 0, 0x02, 0xBD] : List ℕ).getD 0 0 &&& 0x7) = 2
      from by decide,
    show ([0x82, 0, 0, 0x02, 0xEE, 0, 0x02, 0xBD] : List ℕ).getD 1 0 = 0 from by decide,
    show ([0x82, 0, 0, 0x02, 0xEE, 0, 0x02, 0xBD] : List ℕ).getD 2 0 = 0 from by decide,
    show ([0x82, 0, 0, 0x02, 0xEE, 0, 0x02, 0xBD] : List ℕ).getD 3 0 = 2 from by decide,
    show ([0x82, 0, 0, 0x02, 0xEE, 0, 0x02, 0xBD] : List ℕ).getD 4 0 = 238 from by decide,
    show (130 &&& 7 : ℕ) = 2 from by decide,
    show (2 <<< 8 ||| 238 : ℕ) = 750 from by decide]

/-- C5 counterexample: on the accepted frame with payload
82 00 00 02 EE 00 plus its valid CRC, the message the parser emits has
temperature None, not 75.0 °F: the decode_temperature call omits the
logger argument, raises, and the except leaves the field unset.  And
even the formula the claim cites gives 750/160 = 4.6875 on this
payload, not 75.0. -/
theorem parse_temperature_claim_false :
    ((Parser.parse cfgOne discZeros stInit [pktTemp]).1.map Message.temperature)
      = [none] ∧
    ((none : Option ℚ) ≠ some 75) ∧
    decode_temperature [0x82, 0, 0, 0x02, 0xEE, 0, 0x02, 0xBD] = 750 / 160 ∧
    ((750 : ℚ) / 160 ≠ 75) := by
  rw [parse_temp_eval]
  refine ⟨by norm_num [msgTempExpected], by simp, ?_, by norm_num⟩
  norm_num [decode_temperature, show (2 <<< 8 ||| 238 : ℕ) = 750 from by decide]

/-- C5 amended: the frame decodes to station id 2 and sensor nibble 8,
but the emitted temperature is None (the decoder call fails and the
exception is swallowed); the temperature formula of
decoders/temperature.py applied to this payload would give
750/160 = 4.6875 °F, not 75.0 °F. -/
theorem parse_temperature_frame_decoded :
    ((Parser.parse cfgOne discZeros stInit [pktTemp]).1.map
        fun m => (m.id, m.sensor, m.temperature))
      = [(2, some 8, (none : Option ℚ))] ∧
    decode_temperature [0x82, 0, 0, 0x02, 0xEE, 0, 0x02, 0xBD] = 750 / 160 := by
  rw [parse_temp_eval]
  refine ⟨by norm_num [msgTempExpected], ?_⟩
  norm_num [decode_temperature, show (2 <<< 8 ||| 238 : ℕ) = 750 from by decide]

/-! ## Claim theorems: hop state invariant (C10) -/

/-- Reading the channel table inside its range yields a member. -/
theorem channels_getD_mem (j : ℕ) (hj : j < channels.length) :
    channels.getD j 0 ∈ channels := by
  rw [List.getD_eq_getElem?_getD, List.getElem?_eq_getElem hj]
  exact List.getElem_mem hj

/-- C10: every hop operation keeps the hop index inside 0..50, every hop
pattern entry lies in 0..50, and the frequency returned by a hop is
drawn from the 51-entry channel table. -/
theorem hop_state_invariant (p : ParserState) (seed : ℕ) (h : p.hopIdx < 51) :
    Parser.initHopIdx seed < 51 ∧
    (Parser.nextHop p).1.hopIdx < 51 ∧
    (Parser.randHop seed p).1.hopIdx < 51 ∧
    (∀ e ∈ hopPattern, e < 51) ∧
    hopPattern.getD p.hopIdx 0 < channels.length ∧
    (Parser.hop p).2.channelFreq ∈ channels := by
  have hcc : channelCount = 51 := rfl
  have hpat : ∀ i < 51, hopPattern.getD i 0 < 51 := by decide
  have hchan : channels.length = 51 := rfl
  refine ⟨?_, ?_, ?_, by decide, ?_, ?_⟩
  · show 0 + seed % (channelCount - 1 + 1 - 0) < 51
    rw [hcc]
    simpa using Nat.mod_lt seed (show 0 < 51 by norm_num)
  · show (p.hopIdx + 1) % channelCount < 51
    rw [hcc]
    exact Nat.mod_lt _ (by norm_num)
  · show 0 + seed % (channelCount - 1 + 1 - 0) < 51
    rw [hcc]
    simpa using Nat.mod_lt seed (show 0 < 51 by norm_num)
  · rw [hchan]
    exact hpat p.hopIdx h
  · show channels.getD (hopPattern.getD p.hopIdx 0) 0 ∈ channels
    exact channels_getD_mem _ (by rw [hchan]; exact hpat p.hopIdx h)

/-- Witness for C10 at the fresh state and seed 123. -/
theorem hop_state_invariant_witness :
    stInit.hopIdx < 51 ∧
    (Parser.initHopIdx 123 < 51 ∧
     (Parser.nextHop stInit).1.hopIdx < 51 ∧
     (Parser.randHop 123 stInit).1.hopIdx < 51 ∧
     (∀ e ∈ hopPattern, e < 51) ∧
     hopPattern.getD stInit.hopIdx 0 < channels.length ∧
     (Parser.hop stInit).2.channelFreq ∈ channels) :=
  ⟨by norm_num [stInit], hop_state_invariant stInit 123 (by norm_num [stInit])⟩

/-! ## Claim theorems: CRC and bit reversal -/

/-- C7: for every 8-byte payload p, appending the big-endian two-byte
checksum of p (high byte first, then low byte) yields a sequence whose
checksum is zero. -/
theorem crc_append_checksum_zero (p : List ℕ)
    (hlen : p.length = 8) (hbytes : ∀ b ∈ p, b < 256) :
    checksum (p ++ [checksum p / 256, checksum p % 256]) = 0 := by
  have hc : checksum p < 65536 := checksum_lt p
  have hdiv : checksum p / 256 = checksum p >>> 8 := by
    rw [Nat.shiftRight_eq_div_pow]
  unfold checksum
  rw [List.foldl_append]
  have hfold : p.foldl crcStep 0 = checksum p := rfl
  rw [hfold]
  simp only [List.foldl_cons, List.foldl_nil]
  rw [hdiv, crcStep_high]
  exact crcStep_low (checksum p % 256)

/-- Witness for C7 at the all-zero payload. -/
theorem crc_append_checksum_zero_witness :
    checksum ([0, 0, 0, 0, 0, 0, 0, 0] ++
      [checksum [0, 0, 0, 0, 0, 0, 0, 0] / 256,
       checksum [0, 0, 0, 0, 0, 0, 0, 0] % 256]) = 0 :=
  crc_append_checksum_zero [0, 0, 0, 0, 0, 0, 0, 0] (by decide) (by decide)

/-- C8: reversing the bits of a byte twice gives the byte back, for every
byte value 0..255. -/
theorem swapBitOrder_involutive :
    ∀ b < 256, swapBitOrder (swapBitOrder b) = b := by decide

/-- Witness for C8 at the byte 0xB7. -/
theorem swapBitOrder_involutive_witness :
    swapBitOrder (swapBitOrder 0xB7) = 0xB7 :=
  swapBitOrder_involutive 0xB7 (by norm_num)

/-! ## Claim theorems: channel plan -/

/-- C4 counterexample: the first channel table entry is 902355835, not
902419338 as the claim states. -/
theorem channels_first_entry_ne_claimed :
    channels.getD 0 0 = 902355835 ∧ channels.getD 0 0 ≠ 902419338 := by decide

/-- C4 amended: the channel table has exactly 51 entries in strictly
increasing order, with first entry 902355835 Hz and last entry
927443359 Hz. -/
theorem channels_sorted_bounds :
    channels.length = 51 ∧ (∀ i < 50, channels.getD i 0 < channels.getD (i + 1) 0) ∧
    channels.getD 0 0 = 902355835 ∧ channels.getD 50 0 = 927443359 := by decide

end Rtldavis
